import Mathlib

/-!
Shallow embedding of `src/backend/main.py` (Reliance company image insurance
report processing).  The core record pipeline — payin classification, LOB
classification, segment matching, insurer scope resolution, the ordered
decision table and payout calculation — is translated into executable Lean
definitions.  Python floats are modelled as rationals; Python exceptions as
`Except String`; Python dicts as association lists of string keys.
-/

/-! ### Python string primitives -/

/-- Contiguous-substring test: Python `needle in hay` for strings. -/
def containsSub (needle : List Char) : List Char → Bool
  | [] => needle.isEmpty
  | c :: rest => needle.isPrefixOf (c :: rest) || containsSub needle rest

/-- Python `needle in hay` on strings (case-sensitive substring). -/
def pyIn (needle hay : String) : Bool := containsSub needle.data hay.data

/-- Python `str.upper()` (ASCII, matching the data the pipeline handles). -/
def pyUpper (s : String) : String := ⟨s.data.map Char.toUpper⟩

/-- Characters removed by Python `str.strip()` with no argument. -/
def pyIsSpace (c : Char) : Bool :=
  c == ' ' || c == '\t' || c == '\n' || c == '\r' || c == '\x0b' || c == '\x0c'

/-- Python `str.strip()`. -/
def pyStrip (s : String) : String :=
  ⟨((s.data.dropWhile pyIsSpace).reverse.dropWhile pyIsSpace).reverse⟩

/-- Left-to-right removal of every occurrence of `pat`, structurally recursive
on a fuel bound.  Each step consumes at least one character, so fuel equal to
the list length never runs out; the fuel-exhausted branch is unreachable. -/
def removeOccAux (pat : List Char) : Nat → List Char → List Char
  | _, [] => []
  | 0, l => l
  | fuel + 1, c :: rest =>
    if pat ≠ [] ∧ pat.isPrefixOf (c :: rest) then
      removeOccAux pat fuel (rest.drop (pat.length - 1))
    else c :: removeOccAux pat fuel rest

/-- Python `s.replace(pat, '')` for non-empty `pat`. -/
def removeOcc (pat l : List Char) : List Char := removeOccAux pat l.length l

/-- Python `s.replace(pat, '')` on strings. -/
def pyRemove (s pat : String) : String := ⟨removeOcc pat.data s.data⟩

/-! ### Exact numeric values.
Python float values are modelled as exact fractions (integer numerator over a
positive natural denominator, not normalised, so that every operation is
structurally computable in the kernel).  `toRat` gives the mathematical value.
Infinities, NaN, digit-group underscores and non-ASCII digits are outside this
model; everything the pipeline's data exercises (optional sign, integer and
fraction digits, optional exponent) is covered. -/

/-- An exact numeric value: `num / den` with `den` intended positive. -/
structure PyFloat where
  num : ℤ
  den : ℕ
deriving DecidableEq

/-- The rational value of a `PyFloat`. -/
def PyFloat.toRat (x : PyFloat) : ℚ := (x.num : ℚ) / (x.den : ℚ)

/-- Comparison `x <= k` against an integer, by cross-multiplication. -/
def PyFloat.leInt (x : PyFloat) (k : ℤ) : Bool := decide (x.num ≤ k * (x.den : ℤ))

/-- Comparison `k <= x` against an integer, by cross-multiplication. -/
def PyFloat.intLe (k : ℤ) (x : PyFloat) : Bool := decide (k * (x.den : ℤ) ≤ x.num)

/-- Decimal digits to a natural number. -/
def natOfDigits (l : List Char) : Nat :=
  l.foldl (fun acc c => acc * 10 + (c.toNat - '0'.toNat)) 0

/-- Mantissa part: `digits`, `digits.digits`, `digits.`, `.digits`. -/
def parseMantissa (l : List Char) : Option PyFloat :=
  let intPart := l.takeWhile Char.isDigit
  let rest := l.dropWhile Char.isDigit
  match rest with
  | [] => if intPart.isEmpty then none else some ⟨(natOfDigits intPart : ℤ), 1⟩
  | '.' :: frac =>
    if frac.all Char.isDigit ∧ (intPart ≠ [] ∨ frac ≠ []) then
      some ⟨(natOfDigits intPart * 10 ^ frac.length + natOfDigits frac : ℕ), 10 ^ frac.length⟩
    else none
  | _ => none

/-- Exponent part after `e`/`E`: optional sign then digits. -/
def parseExp (l : List Char) : Option ℤ :=
  match l with
  | '+' :: ds => if ds ≠ [] ∧ ds.all Char.isDigit then some (natOfDigits ds : ℤ) else none
  | '-' :: ds => if ds ≠ [] ∧ ds.all Char.isDigit then some (-(natOfDigits ds : ℤ)) else none
  | ds => if ds ≠ [] ∧ ds.all Char.isDigit then some (natOfDigits ds : ℤ) else none

/-- Scale a mantissa by `10 ^ e`. -/
def applyExp (m : PyFloat) : ℤ → PyFloat
  | .ofNat k => ⟨m.num * 10 ^ k, m.den⟩
  | .negSucc k => ⟨m.num, m.den * 10 ^ (k + 1)⟩

/-- Unsigned numeral with optional exponent. -/
def parseNumBody (l : List Char) : Option PyFloat :=
  let mant := l.takeWhile (fun c => c ≠ 'e' ∧ c ≠ 'E')
  let rest := l.dropWhile (fun c => c ≠ 'e' ∧ c ≠ 'E')
  match parseMantissa mant with
  | none => none
  | some m =>
    match rest with
    | [] => some m
    | _ :: expPart =>
      match parseExp expPart with
      | none => none
      | some e => some (applyExp m e)

/-- Python `float(s)` on already-stripped text, as a partial function. -/
def parsePyFloat (s : String) : Option PyFloat :=
  match s.data with
  | '+' :: rest => parseNumBody rest
  | '-' :: rest => (parseNumBody rest).map (fun m => ⟨-m.num, m.den⟩)
  | l => parseNumBody l

/-! ### classify_payin (main.py lines 176-197) -/

/-- The cleaning done by `classify_payin`:
`str(payin_str).replace('%', '').replace(' ', '').strip()`. -/
def cleanPayin (payin_str : String) : String :=
  pyStrip (pyRemove (pyRemove payin_str "%") " ")

/-- The bracket chain of `classify_payin` (lines 186-193):
`<= 20`, `21 <= v <= 30`, `31 <= v <= 50`, else above 50. -/
def payinCategoryOf (v : PyFloat) : String :=
  if v.leInt 20 then "Payin Below 20%"
  else if PyFloat.intLe 21 v && v.leInt 30 then "Payin 21% to 30%"
  else if PyFloat.intLe 31 v && v.leInt 50 then "Payin 31% to 50%"
  else "Payin Above 50%"

/-- `classify_payin` (lines 176-197).  The Python `try`/`except (ValueError,
TypeError)` around `float()` is the `none` branch of the parser. -/
def classify_payin (payin_str : String) : PyFloat × String :=
  let cleaned := cleanPayin payin_str
  if cleaned = "" ∨ pyUpper cleaned = "N/A" then (⟨0, 1⟩, "Payin Below 20%")
  else
    match parsePyFloat cleaned with
    | none => (⟨0, 1⟩, "Payin Below 20%")
    | some v => (v, payinCategoryOf v)

/-! ### The embedded decision table (main.py lines 51-80) -/

/-- One entry of `FORMULA_DATA`. -/
structure Rule where
  LOB : String
  SEGMENT : String
  INSURER : String
  PO : String
  REMARKS : String
deriving DecidableEq

/-- The embedded formula data, in declaration order (lines 51-80). -/
def FORMULA_DATA : List Rule := [
  ⟨"TW", "1+5", "All Companies", "90% of Payin", "NIL"⟩,
  ⟨"TW", "TW SAOD + COMP", "All Companies", "90% of Payin", "NIL"⟩,
  ⟨"TW", "TW SAOD + COMP", "DIGIT", "-2%", "Payin Below 20%"⟩,
  ⟨"TW", "TW SAOD + COMP", "DIGIT", "-3%", "Payin 21% to 30%"⟩,
  ⟨"TW", "TW SAOD + COMP", "DIGIT", "-4%", "Payin 31% to 50%"⟩,
  ⟨"TW", "TW SAOD + COMP", "DIGIT", "-5%", "Payin Above 50%"⟩,
  ⟨"TW", "TW TP", "Bajaj, Digit, ICICI", "-3%", "Payin Above 20%"⟩,
  ⟨"TW", "TW TP", "Rest of Companies", "-2%", "Payin Below 20%"⟩,
  ⟨"TW", "TW TP", "Rest of Companies", "-3%", "Payin 21% to 30%"⟩,
  ⟨"TW", "TW TP", "Rest of Companies", "-4%", "Payin 31% to 50%"⟩,
  ⟨"TW", "TW TP", "Rest of Companies", "-5%", "Payin Above 50%"⟩,
  ⟨"PVT CAR", "PVT CAR COMP + SAOD", "All Companies", "90% of Payin", "All Fuel"⟩,
  ⟨"PVT CAR", "PVT CAR TP", "Bajaj, Digit, SBI", "-2%", "Payin Below 20%"⟩,
  ⟨"PVT CAR", "PVT CAR TP", "Bajaj, Digit, SBI", "-3%", "Payin Above 20%"⟩,
  ⟨"PVT CAR", "PVT CAR TP", "Rest of Companies", "90% of Payin", "Zuno - 21"⟩,
  ⟨"CV", "Upto 2.5 GVW", "Reliance, SBI", "-2%", "NIL"⟩,
  ⟨"CV", "All GVW & PCV 3W, GCV 3W", "Rest of Companies", "-2%", "Payin Below 20%"⟩,
  ⟨"CV", "All GVW & PCV 3W, GCV 3W", "Rest of Companies", "-3%", "Payin 21% to 30%"⟩,
  ⟨"CV", "All GVW & PCV 3W, GCV 3W", "Rest of Companies", "-4%", "Payin 31% to 50%"⟩,
  ⟨"CV", "All GVW & PCV 3W, GCV 3W", "Rest of Companies", "-5%", "Payin Above 50%"⟩,
  ⟨"BUS", "SCHOOL BUS", "TATA, Reliance, Digit, ICICI", "Less 2% of Payin", "NIL"⟩,
  ⟨"BUS", "SCHOOL BUS", "Rest of Companies", "88% of Payin", "NIL"⟩,
  ⟨"BUS", "STAFF BUS", "All Companies", "88% of Payin", "NIL"⟩,
  ⟨"TAXI", "TAXI", "All Companies", "-2%", "Payin Below 20%"⟩,
  ⟨"TAXI", "TAXI", "All Companies", "-3%", "Payin 21% to 30%"⟩,
  ⟨"TAXI", "TAXI", "All Companies", "-4%", "Payin 31% to 50%"⟩,
  ⟨"TAXI", "TAXI", "All Companies", "-5%", "Payin Above 50%"⟩,
  ⟨"MISD", "Misd, Tractor", "All Companies", "88% of Payin", "NIL"⟩]

/-! ### Records: Python dicts with string keys -/

/-- A field value of a record: a string or a numeric value. -/
inductive Val where
  | s : String → Val
  | n : PyFloat → Val
deriving DecidableEq

/-- Python `str()` on field values.  String fields pass through unchanged;
numeric rendering is only a placeholder, since no claim exercises `str()` on
a numeric field. -/
def pyStr : Val → String
  | .s t => t
  | .n x => toString x.num ++ "/" ++ toString x.den

/-- A record: an association list modelling a Python dict (keys unique,
insertion-ordered). -/
abbrev Record := List (String × Val)

/-- Python `record.get(k, default)`. -/
def getVal (r : Record) (k : String) (default : Val) : Val :=
  match r.find? (fun p => p.1 == k) with
  | some p => p.2
  | none => default

/-- The first value stored under key `k`, if any. -/
def lookupField (r : Record) (k : String) : Option Val :=
  (r.find? (fun p => p.1 == k)).map (fun p => p.2)

/-- Python `d[k] = v` on a copy of the dict: update in place (keeping the
key's insertion position) when the key is present, append at the end
otherwise. -/
def setVal (r : Record) (k : String) (v : Val) : Record :=
  match r with
  | [] => [(k, v)]
  | (k1, v1) :: rest => if k1 == k then (k, v) :: rest else (k1, v1) :: setVal rest k v

/-! ### LOB classification (main.py lines 213-233) -/

/-- First keyword set (line 216): maps to `TW`. -/
def TW_KEYWORDS : List String := ["TW", "2W", "TWO WHEELER", "TWO-WHEELER"]

/-- Second keyword set (line 218): maps to `PVT CAR`. -/
def CAR_KEYWORDS : List String := ["PVT CAR", "PRIVATE CAR", "CAR", "PCI"]

/-- Third keyword set (line 220): maps to `CV`. -/
def CV_KEYWORDS : List String :=
  ["CV", "COMMERCIAL", "LCV", "GVW", "TN", "UPTO", "ALL GVW", "PCV", "GCV"]

/-- Sixth keyword set (line 226): maps to `MISD`. -/
def MISD_KEYWORDS : List String :=
  ["MISD", "TRACTOR", "MISC", "AMBULANCE", "POLICE VAN", "GARBAGE VAN"]

/-- Remarks fallback keywords (line 230): indicate `CV`. -/
def CV_REMARKS_KEYWORDS : List String := ["TATA", "MARUTI", "GVW", "TN"]

/-- `any(keyword in text for keyword in keys)`. -/
def containsAny (text : String) (keys : List String) : Bool :=
  keys.any (fun k => pyIn k text)

/-- The LOB keyword cascade (lines 216-233), with the remarks fallback used
only when no segment keyword set matches. -/
def classifyLOB (segment_upper remarks_upper : String) : String :=
  if containsAny segment_upper TW_KEYWORDS then "TW"
  else if containsAny segment_upper CAR_KEYWORDS then "PVT CAR"
  else if containsAny segment_upper CV_KEYWORDS then "CV"
  else if pyIn "BUS" segment_upper then "BUS"
  else if pyIn "TAXI" segment_upper then "TAXI"
  else if containsAny segment_upper MISD_KEYWORDS then "MISD"
  else if containsAny remarks_upper CV_REMARKS_KEYWORDS then "CV"
  else "UNKNOWN"

/-- BUS segment normalisation (lines 235-242). -/
def matchedSegmentOf (lob segment_upper : String) : String :=
  if lob = "BUS" then
    if ¬ pyIn "SCHOOL" segment_upper ∧ ¬ pyIn "STAFF" segment_upper then "STAFF BUS"
    else if pyIn "SCHOOL" segment_upper then "SCHOOL BUS"
    else "STAFF BUS"
  else segment_upper

/-! ### Per-rule segment matching (main.py lines 252-277) -/

/-- LOB-specific segment matching against a rule's upper-cased segment text. -/
def segmentMatch (lob rule_segment segment_upper matched_segment : String) : Bool :=
  if lob = "CV" then
    if pyIn "UPTO 2.5" rule_segment then
      containsAny segment_upper ["UPTO 2.5", "2.5 TN", "2.5 GVW", "2.5TN", "2.5GVW", "UPTO2.5"]
    else pyIn "ALL GVW" rule_segment
  else if lob = "BUS" then matched_segment == rule_segment
  else if lob = "PVT CAR" then
    if pyIn "COMP" rule_segment &&
        containsAny segment_upper ["COMP", "COMPREHENSIVE", "PACKAGE", "1ST PARTY", "1+1"] then
      true
    else pyIn "TP" rule_segment && pyIn "TP" segment_upper && !(pyIn "COMP" segment_upper)
  else if lob = "TW" then
    if pyIn "1+5" rule_segment && containsAny segment_upper ["1+5", "NEW", "FRESH"] then true
    else if pyIn "SAOD + COMP" rule_segment &&
        containsAny segment_upper ["SAOD", "COMP", "PACKAGE", "1ST PARTY", "1+1"] then true
    else pyIn "TP" rule_segment && pyIn "TP" segment_upper
  else true

/-! ### Insurer scope resolution (main.py lines 246, 282-304) -/

/-- Company normalisation (line 246):
`company_name.upper().replace('GENERAL', '').replace('INSURANCE', '').strip()`. -/
def normalizeCompany (company_name : String) : String :=
  pyStrip (pyRemove (pyRemove (pyUpper company_name) "GENERAL") "INSURANCE")

/-- Split at every comma, keeping empty pieces: Python `s.split(',')`,
returning the current piece under construction and the completed pieces. -/
def splitCommaAux : List Char → List Char × List (List Char)
  | [] => ([], [])
  | c :: rest =>
    let r := splitCommaAux rest
    if c = ',' then ([], r.1 :: r.2)
    else (c :: r.1, r.2)

/-- Python `s.split(',')`. -/
def splitComma (s : String) : List String :=
  ((splitCommaAux s.data).1 :: (splitCommaAux s.data).2).map (fun l => ⟨l⟩)

/-- `[ins.strip().upper() for ins in rule["INSURER"].split(',')]` (line 282). -/
def splitInsurers (insurerField : String) : List String :=
  (splitComma insurerField).map (fun s => pyUpper (pyStrip s))

/-- The `Rest of Companies` exclusion scan (lines 288-297): is the company
claimed by a sibling rule of the same (LOB, SEGMENT) whose raw insurer field
contains neither `"REST OF COMPANIES"` nor `"ALL COMPANIES"` (a case-sensitive
test on the raw field, exactly as in the source)? -/
def isInSpecificList (table : List Rule) (rule : Rule) (company_normalized : String) : Bool :=
  table.any (fun other =>
    other.LOB == rule.LOB && other.SEGMENT == rule.SEGMENT &&
    !(pyIn "REST OF COMPANIES" other.INSURER) && !(pyIn "ALL COMPANIES" other.INSURER) &&
    (splitInsurers other.INSURER).any (fun key => pyIn key company_normalized))

/-- Insurer scope resolution for one rule (lines 282-304). -/
def companyMatch (table : List Rule) (rule : Rule) (company_normalized : String) : Bool :=
  if (splitInsurers rule.INSURER).contains "ALL COMPANIES" then true
  else if (splitInsurers rule.INSURER).contains "REST OF COMPANIES" then
    !(isInSpecificList table rule company_normalized)
  else (splitInsurers rule.INSURER).any
    (fun ins => pyIn ins company_normalized || pyIn company_normalized ins)

/-! ### Remarks conditions and the decision loop (main.py lines 248-323) -/

/-- The payin-bracket phrases looked for in a rule's remarks (line 315). -/
def PAYIN_KEYWORDS : List String := ["Payin Below", "Payin 21%", "Payin 31%", "Payin Above"]

/-- Remarks condition of the loop (lines 311-323), for a string-valued
payin category: `NIL` matches unconditionally, a payin-bracket phrase matches
when the record's category is a substring of the remarks, and any other
remark matches unconditionally. -/
def remarksFire (remarks cat : String) : Bool :=
  if remarks = "NIL" ∨ pyIn "NIL" (pyUpper remarks) then true
  else if PAYIN_KEYWORDS.any (fun k => pyIn k remarks) then pyIn cat remarks
  else true

/-- Whether a rule fully matches: LOB, segment, insurer scope and remarks
(the loop body, lines 249-323, for a string payin category). -/
def ruleFires (table : List Rule) (lob segment_upper matched_segment company_normalized
    cat : String) (rule : Rule) : Bool :=
  rule.LOB == lob &&
  segmentMatch lob (pyUpper rule.SEGMENT) segment_upper matched_segment &&
  companyMatch table rule company_normalized &&
  remarksFire rule.REMARKS cat

/-- The explanation string built at the matching break (lines 313, 318, 322). -/
def ruleExplanation (lob : String) (rule : Rule) (cat : String) : String :=
  let rs := pyUpper rule.SEGMENT
  if rule.REMARKS = "NIL" ∨ pyIn "NIL" (pyUpper rule.REMARKS) then
    "Direct match: LOB=" ++ lob ++ ", Segment=" ++ rs ++ ", Company=" ++ rule.INSURER
  else if PAYIN_KEYWORDS.any (fun k => pyIn k rule.REMARKS) then
    "Payin category match: LOB=" ++ lob ++ ", Segment=" ++ rs ++ ", Payin=" ++ cat
  else
    "Other remarks match: LOB=" ++ lob ++ ", Segment=" ++ rs ++ ", Remarks=" ++ rule.REMARKS

/-- The decision loop (lines 248-323).  Iterates the given rule list in order;
`table` is the full table consulted by the `Rest of Companies` exclusion.
A numeric payin category reaching the `payin_category in remarks` test raises
(Python `TypeError`), modelled by the `error` branch. -/
def findRule (table : List Rule) (lob segment_upper matched_segment company_normalized : String)
    (payin_category : Val) : List Rule → Except String (Option (Rule × String))
  | [] => .ok none
  | rule :: rest =>
    if rule.LOB ≠ lob then
      findRule table lob segment_upper matched_segment company_normalized payin_category rest
    else if !(segmentMatch lob (pyUpper rule.SEGMENT) segment_upper matched_segment) then
      findRule table lob segment_upper matched_segment company_normalized payin_category rest
    else if !(companyMatch table rule company_normalized) then
      findRule table lob segment_upper matched_segment company_normalized payin_category rest
    else if rule.REMARKS = "NIL" ∨ pyIn "NIL" (pyUpper rule.REMARKS) then
      .ok (some (rule, ruleExplanation lob rule (pyStr payin_category)))
    else if PAYIN_KEYWORDS.any (fun k => pyIn k rule.REMARKS) then
      match payin_category with
      | .n _ => .error "'in <string>' requires string as left operand"
      | .s cat =>
        if pyIn cat rule.REMARKS then
          .ok (some (rule, ruleExplanation lob rule cat))
        else findRule table lob segment_upper matched_segment company_normalized payin_category rest
    else
      .ok (some (rule, ruleExplanation lob rule (pyStr payin_category)))

/-! ### Payout calculation and record assembly (main.py lines 325-365) -/

/-- The formula chain applied to the payin value (lines 329-342). -/
def applyPO (po : String) (v : PyFloat) : PyFloat :=
  if pyIn "90% of Payin" po then ⟨v.num * 9, v.den * 10⟩
  else if pyIn "88% of Payin" po then ⟨v.num * 88, v.den * 100⟩
  else if pyIn "Less 2% of Payin" po then ⟨v.num - 2 * v.den, v.den⟩
  else if pyIn "-2%" po then ⟨v.num - 2 * v.den, v.den⟩
  else if pyIn "-3%" po then ⟨v.num - 3 * v.den, v.den⟩
  else if pyIn "-4%" po then ⟨v.num - 4 * v.den, v.den⟩
  else if pyIn "-5%" po then ⟨v.num - 5 * v.den, v.den⟩
  else v

/-- Python `max(0, x)` (line 344). -/
def max0 (v : PyFloat) : PyFloat := if v.num < 0 then ⟨0, 1⟩ else v

/-- Round to a whole number of hundredths, ties to even (the rounding of
Python's `f"{x:.2f}"` on the exact value). -/
def roundCents (v : PyFloat) : ℤ :=
  let n := 100 * v.num
  let d := (v.den : ℤ)
  let f := Int.fdiv n d
  let r := n - f * d
  if 2 * r < d then f
  else if d < 2 * r then f + 1
  else if f % 2 = 0 then f else f + 1

/-- Left-pad to two digits. -/
def twoDigits (n : Nat) : String :=
  if n < 10 then "0" ++ toString n else toString n

/-- Python `f"{x:.2f}"` on the exact value. -/
def formatFixed2 (v : PyFloat) : String :=
  let c := roundCents v
  let sign := if c < 0 then "-" else ""
  let m := c.natAbs
  sign ++ toString (m / 100) ++ "." ++ twoDigits (m % 100)

/-- Python `f"{x:.2f}%"` (lines 351, 360). -/
def formatPct (v : PyFloat) : String := formatFixed2 v ++ "%"

/-- Arithmetic and `.2f` formatting need a numeric operand; a string raises
(Python `TypeError`/`ValueError`), modelled by the `error` branch. -/
def asNum : Val → Except String PyFloat
  | .n x => .ok x
  | .s _ => .error "unsupported operand type for payout arithmetic"

/-- Classification plus the decision loop for one record (lines 209-323):
derives the upper-cased segment, the LOB, the BUS-normalised segment and the
normalised company, then runs the table. -/
def recordMatch (table : List Rule) (company_name : String) (record : Record) :
    Except String (Option (Rule × String)) :=
  let segment := pyUpper (pyStr (getVal record "Segment" (.s "")))
  let segment_upper := pyUpper segment
  let remarks_upper := pyUpper (pyStr (getVal record "Remarks" (.s "")))
  let lob := classifyLOB segment_upper remarks_upper
  findRule table lob segment_upper (matchedSegmentOf lob segment_upper)
    (normalizeCompany company_name) (getVal record "Payin_Category" (.s "")) table

/-- The three output fields computed for one record (lines 325-353): payout
text, formula text, explanation text — or the caught exception message. -/
def computeFields (table : List Rule) (company_name : String) (record : Record) :
    Except String (String × String × String) :=
  match recordMatch table company_name record with
  | .error msg => .error msg
  | .ok (some (rule, expl)) =>
    match asNum (getVal record "Payin_Value" (.n ⟨0, 1⟩)) with
    | .error msg => .error msg
    | .ok v => .ok (formatPct (max0 (applyPO rule.PO v)), rule.PO, expl)
  | .ok none =>
    match asNum (getVal record "Payin_Value" (.n ⟨0, 1⟩)) with
    | .error msg => .error msg
    | .ok v => .ok (formatPct v, "No matching rule found", "")

/-- Copy the record and set the three output fields (lines 350-353). -/
def assembleOutput (record : Record) (payout formula expl : String) : Record :=
  setVal (setVal (setVal record "Calculated Payout" (.s payout))
    "Formula Used" (.s formula)) "Rule Explanation" (.s expl)

/-- One loop iteration of `apply_formula_directly` including its per-record
`try`/`except` (lines 207-363). -/
def processOne (table : List Rule) (company_name : String) (record : Record) : Record :=
  match computeFields table company_name record with
  | .ok (p, f, e) => assembleOutput record p f e
  | .error msg => assembleOutput record "Error" "Error in calculation" ("Error: " ++ msg)

/-- `apply_formula_directly` (lines 199-365): one output record per input
record, in order, against the embedded `FORMULA_DATA`. -/
def apply_formula_directly (policy_data : List Record) (company_name : String) : List Record :=
  policy_data.map (processOne FORMULA_DATA company_name)

/-! ### Concrete inputs for the claims -/

/-- The `TW TP` rule with an explicit insurer list (table index 6). -/
def twTpExplicitRule : Rule := ⟨"TW", "TW TP", "Bajaj, Digit, ICICI", "-3%", "Payin Above 20%"⟩

/-- The first `TW TP` rest-of-companies rule (table index 7). -/
def twTpRestRule : Rule := ⟨"TW", "TW TP", "Rest of Companies", "-2%", "Payin Below 20%"⟩

/-- The first `TAXI` rule (table index 23). -/
def taxiBelowRule : Rule := ⟨"TAXI", "TAXI", "All Companies", "-2%", "Payin Below 20%"⟩

/-- The end-to-end `TW TP` scenario record: segment `TW TP`, payin `55%`
(value 55, bracket `Payin Above 50%`), as produced by upstream
classification. -/
def twTpRecord : Record :=
  [("Segment", .s "TW TP"), ("Payin_Value", .n ⟨55, 1⟩),
   ("Payin_Category", .s "Payin Above 50%")]

/-- A record with a negative payin value whose segment matches no LOB. -/
def negPayinRecord : Record :=
  [("Segment", .s "XYZ"), ("Payin_Value", .n ⟨-5, 1⟩),
   ("Payin_Category", .s "Payin Below 20%")]

/-- A record whose segment classifies to no LOB, with a plain payin value. -/
def unknownSegRecord : Record := [("Segment", .s "QQQ"), ("Payin_Value", .n ⟨10, 1⟩)]

/-- A record whose payin value is a string: payout arithmetic raises. -/
def badPayinRecord : Record := [("Segment", .s "ZZZ"), ("Payin_Value", .s "abc")]

/-- A well-formed TAXI record. -/
def taxiRecord : Record :=
  [("Segment", .s "TAXI"), ("Payin_Value", .n ⟨25, 1⟩),
   ("Payin_Category", .s "Payin 21% to 30%")]

/-! ### Bridge lemmas between the executable model and rational values -/

/-- `leInt` agrees with the rational comparison when the denominator is
positive. -/
theorem PyFloat.leInt_iff (x : PyFloat) (k : ℤ) (h : 0 < x.den) :
    x.leInt k = true ↔ x.toRat ≤ (k : ℚ) := by
  have hd : (0 : ℚ) < (x.den : ℚ) := by exact_mod_cast h
  simp only [PyFloat.leInt, decide_eq_true_eq, PyFloat.toRat]
  rw [div_le_iff₀ hd]
  exact_mod_cast Iff.rfl

/-- `intLe` agrees with the rational comparison when the denominator is
positive. -/
theorem PyFloat.intLe_iff (k : ℤ) (x : PyFloat) (h : 0 < x.den) :
    PyFloat.intLe k x = true ↔ (k : ℚ) ≤ x.toRat := by
  have hd : (0 : ℚ) < (x.den : ℚ) := by exact_mod_cast h
  simp only [PyFloat.intLe, decide_eq_true_eq, PyFloat.toRat]
  rw [le_div_iff₀ hd]
  exact_mod_cast Iff.rfl

/-- `max0` computes the rational `max 0`. -/
theorem max0_toRat (v : PyFloat) (h : 0 < v.den) : (max0 v).toRat = max 0 v.toRat := by
  have hd : (0 : ℚ) < (v.den : ℚ) := by exact_mod_cast h
  unfold max0
  by_cases hn : v.num < 0
  · have hneg : v.toRat < 0 := by
      unfold PyFloat.toRat
      apply div_neg_of_neg_of_pos _ hd
      exact_mod_cast hn
    rw [if_pos hn, max_eq_left hneg.le]
    simp [PyFloat.toRat]
  · have hpos : 0 ≤ v.toRat := by
      unfold PyFloat.toRat
      apply div_nonneg _ hd.le
      rw [not_lt] at hn
      exact_mod_cast hn
    rw [if_neg hn, max_eq_right hpos]

/-- `applyPO` keeps the denominator positive. -/
theorem applyPO_den_pos (po : String) (v : PyFloat) (h : 0 < v.den) :
    0 < (applyPO po v).den := by
  unfold applyPO
  split_ifs <;> first
  | exact h
  | (dsimp only; omega)

/-! ### Record update lemmas -/

/-- Head hit: looking up the key stored at the head of a record. -/
theorem lookupField_cons_self (k1 : String) (v1 : Val) (rest : Record) (q : String)
    (h : k1 = q) : lookupField ((k1, v1) :: rest) q = some v1 := by
  unfold lookupField
  rw [List.find?_cons_of_pos _ (by simp [h])]
  rfl

/-- Head miss: looking up a key different from the head key. -/
theorem lookupField_cons_ne (k1 : String) (v1 : Val) (rest : Record) (q : String)
    (h : ¬ k1 = q) : lookupField ((k1, v1) :: rest) q = lookupField rest q := by
  unfold lookupField
  rw [List.find?_cons_of_neg _ (by simp [h])]

/-- Looking a key up after `setVal`: the set key reads back the new value,
every other key is untouched. -/
theorem lookupField_setVal (r : Record) (k : String) (v : Val) (q : String) :
    lookupField (setVal r k v) q = if q = k then some v else lookupField r q := by
  induction r with
  | nil =>
    by_cases h : q = k
    · rw [if_pos h]
      exact lookupField_cons_self k v [] q h.symm
    · rw [if_neg h]
      exact lookupField_cons_ne k v [] q (fun hh => h hh.symm)
  | cons p rest ih =>
    obtain ⟨k1, v1⟩ := p
    by_cases h1 : k1 = k
    · subst h1
      rw [show setVal ((k1, v1) :: rest) k1 v = (k1, v) :: rest from by simp [setVal]]
      by_cases h2 : q = k1
      · rw [if_pos h2, lookupField_cons_self _ _ _ _ h2.symm]
      · rw [if_neg h2, lookupField_cons_ne _ _ _ _ (fun hh => h2 hh.symm),
          lookupField_cons_ne _ _ _ _ (fun hh => h2 hh.symm)]
    · rw [show setVal ((k1, v1) :: rest) k v = (k1, v1) :: setVal rest k v from by
        simp [setVal, h1]]
      by_cases h2 : k1 = q
      · have hqk : ¬ q = k := fun hh => h1 (h2.trans hh)
        rw [if_neg hqk, lookupField_cons_self _ _ _ _ h2, lookupField_cons_self _ _ _ _ h2]
      · rw [lookupField_cons_ne _ _ _ _ h2, ih]
        by_cases h3 : q = k
        · rw [if_pos h3, if_pos h3]
        · rw [if_neg h3, if_neg h3, lookupField_cons_ne _ _ _ _ h2]

/-- Fields other than the three output fields read back unchanged. -/
theorem assembleOutput_frame (r : Record) (p f e q : String)
    (h1 : q ≠ "Calculated Payout") (h2 : q ≠ "Formula Used")
    (h3 : q ≠ "Rule Explanation") :
    lookupField (assembleOutput r p f e) q = lookupField r q := by
  unfold assembleOutput
  rw [lookupField_setVal, if_neg h3, lookupField_setVal, if_neg h2,
    lookupField_setVal, if_neg h1]

/-- The payout field of an assembled output. -/
theorem assembleOutput_payout (r : Record) (p f e : String) :
    lookupField (assembleOutput r p f e) "Calculated Payout" = some (.s p) := by
  unfold assembleOutput
  rw [lookupField_setVal, if_neg (by decide), lookupField_setVal, if_neg (by decide),
    lookupField_setVal, if_pos rfl]

/-- The formula field of an assembled output. -/
theorem assembleOutput_formula (r : Record) (p f e : String) :
    lookupField (assembleOutput r p f e) "Formula Used" = some (.s f) := by
  unfold assembleOutput
  rw [lookupField_setVal, if_neg (by decide), lookupField_setVal, if_pos rfl]

/-- The explanation field of an assembled output. -/
theorem assembleOutput_explanation (r : Record) (p f e : String) :
    lookupField (assembleOutput r p f e) "Rule Explanation" = some (.s e) := by
  unfold assembleOutput
  rw [lookupField_setVal, if_pos rfl]

/-- Every processed record is its input record with the three output fields
set: either the computed fields or the error markers. -/
theorem processOne_eq_assemble (table : List Rule) (company : String) (r : Record) :
    ∃ p f e, processOne table company r = assembleOutput r p f e := by
  unfold processOne
  cases h : computeFields table company r with
  | ok t =>
    obtain ⟨p, f, e⟩ := t
    exact ⟨p, f, e, rfl⟩
  | error msg =>
    exact ⟨"Error", "Error in calculation", "Error: " ++ msg, rfl⟩

/-! ### The decision loop is a first-match scan -/

/-- One step of the decision loop: with a string payin category, the head rule
is returned exactly when it fires, otherwise the scan continues. -/
theorem findRule_cons (table : List Rule) (lob su ms cn cat : String) (rule : Rule)
    (rest : List Rule) :
    findRule table lob su ms cn (.s cat) (rule :: rest) =
      if ruleFires table lob su ms cn cat rule then
        .ok (some (rule, ruleExplanation lob rule cat))
      else findRule table lob su ms cn (.s cat) rest := by
  by_cases h1 : rule.LOB = lob
  · by_cases h2 : segmentMatch lob (pyUpper rule.SEGMENT) su ms = true
    · by_cases h3 : companyMatch table rule cn = true
      · by_cases h4 : rule.REMARKS = "NIL" ∨ pyIn "NIL" (pyUpper rule.REMARKS) = true
        · simp [findRule, ruleFires, remarksFire, pyStr, h1, h2, h3, h4]
        · by_cases h5 : PAYIN_KEYWORDS.any (fun k => pyIn k rule.REMARKS) = true
          · by_cases h6 : pyIn cat rule.REMARKS = true
            · simp [findRule, ruleFires, remarksFire, pyStr, h1, h2, h3, h4, h5, h6]
            · simp [findRule, ruleFires, remarksFire, pyStr, h1, h2, h3, h4, h5, h6]
          · simp [findRule, ruleFires, remarksFire, pyStr, h1, h2, h3, h4, h5]
      · simp [findRule, ruleFires, h1, h2, h3]
    · simp [findRule, ruleFires, h1, h2]
  · simp [findRule, ruleFires, h1]

/-- C6: the decision loop is first-match-wins in table declaration order with
no scoring — given any index `i` whose rule fully matches (LOB, segment,
insurer scope and remarks), the evaluator returns the rule at the least
matching index `k ≤ i`, and every rule before `k` does not match. -/
theorem first_match_wins (table : List Rule) (lob su ms cn cat : String)
    (rules : List Rule) (i : Nat) (hi : i < rules.length)
    (hfire : ruleFires table lob su ms cn cat (rules.get ⟨i, hi⟩) = true) :
    ∃ k, ∃ hk : k < rules.length, k ≤ i ∧
      ruleFires table lob su ms cn cat (rules.get ⟨k, hk⟩) = true ∧
      (∀ m (hm : m < rules.length), m < k →
        ruleFires table lob su ms cn cat (rules.get ⟨m, hm⟩) = false) ∧
      findRule table lob su ms cn (.s cat) rules =
        .ok (some (rules.get ⟨k, hk⟩, ruleExplanation lob (rules.get ⟨k, hk⟩) cat)) := by
  induction rules generalizing i with
  | nil => exact absurd hi (Nat.not_lt_zero i)
  | cons r rest ih =>
    by_cases hr : ruleFires table lob su ms cn cat r = true
    · refine ⟨0, Nat.succ_pos _, Nat.zero_le _, hr, ?_, ?_⟩
      · intro m hm hmk
        exact absurd hmk (Nat.not_lt_zero m)
      · rw [findRule_cons, if_pos hr]
        rfl
    · cases i with
      | zero => exact absurd hfire hr
      | succ j =>
        have hj : j < rest.length := Nat.lt_of_succ_lt_succ hi
        have hf : ruleFires table lob su ms cn cat (rest.get ⟨j, hj⟩) = true := hfire
        obtain ⟨k, hk, hki, hfk, hmin, heq⟩ := ih j hj hf
        refine ⟨k + 1, Nat.succ_lt_succ hk, Nat.succ_le_succ hki, hfk, ?_, ?_⟩
        · intro m hm hmk
          cases m with
          | zero =>
            rw [Bool.not_eq_true] at hr
            exact hr
          | succ m1 =>
            exact hmin m1 (Nat.lt_of_succ_lt_succ hm) (Nat.lt_of_succ_lt_succ hmk)
        · rw [findRule_cons, if_neg hr, heq]
          rfl

/-- `leInt` is false when the value is strictly above the bound. -/
theorem leInt_false_of_lt (x : PyFloat) (k : ℤ) (h : 0 < x.den)
    (hv : (k : ℚ) < x.toRat) : x.leInt k = false := by
  rw [← Bool.not_eq_true]
  intro hx
  exact absurd ((PyFloat.leInt_iff x k h).mp hx) (not_le.mpr hv)

/-- `intLe` is false when the value is strictly below the bound. -/
theorem intLe_false_of_lt (k : ℤ) (x : PyFloat) (h : 0 < x.den)
    (hv : x.toRat < (k : ℚ)) : PyFloat.intLe k x = false := by
  rw [← Bool.not_eq_true]
  intro hx
  exact absurd ((PyFloat.intLe_iff k x h).mp hx) (not_le.mpr hv)

/-! ### Claim theorems -/

/-- C1 counterexample: the claim says `20 < v ≤ 30` maps to the
`Payin 21% to 30%` bracket, in particular at `classify_payin(20.01)`; the
code's chain is `v <= 20`, `21 <= v <= 30`, `31 <= v <= 50`, so 20.01 —
whose exact value 2001/100 lies in `(20, 30]` — falls through every branch
to `Payin Above 50%`, not to the 21-30 bracket. -/
theorem classify_payin_gap_counterexample :
    classify_payin "20.01" = (⟨2001, 100⟩, "Payin Above 50%") ∧
    (20 : ℚ) < PyFloat.toRat ⟨2001, 100⟩ ∧ PyFloat.toRat ⟨2001, 100⟩ ≤ 30 ∧
    "Payin Above 50%" ≠ "Payin 21% to 30%" := by
  refine ⟨by decide, by norm_num [PyFloat.toRat], by norm_num [PyFloat.toRat], by decide⟩

/-- C1 amended: `classify_payin` brackets by `v ≤ 20 → Below 20`,
`21 ≤ v ≤ 30 → 21-30`, `31 ≤ v ≤ 50 → 31-50`, and everything else —
`v > 50` together with the gaps `20 < v < 21` and `30 < v < 31` — by
`Above 50`; the boundary values 30 and 50 still belong to the lower
bracket (`classify_payin(30)` is 21-30 and `classify_payin(50)` is 31-50),
but `classify_payin(20.01)` is `Above 50`. -/
theorem classify_payin_brackets (v : PyFloat) (h : 0 < v.den) :
    (v.toRat ≤ 20 → payinCategoryOf v = "Payin Below 20%") ∧
    (21 ≤ v.toRat ∧ v.toRat ≤ 30 → payinCategoryOf v = "Payin 21% to 30%") ∧
    (31 ≤ v.toRat ∧ v.toRat ≤ 50 → payinCategoryOf v = "Payin 31% to 50%") ∧
    ((50 < v.toRat ∨ (20 < v.toRat ∧ v.toRat < 21) ∨ (30 < v.toRat ∧ v.toRat < 31)) →
      payinCategoryOf v = "Payin Above 50%") ∧
    classify_payin "30" = (⟨30, 1⟩, "Payin 21% to 30%") ∧
    classify_payin "50" = (⟨50, 1⟩, "Payin 31% to 50%") := by
  refine ⟨?_, ?_, ?_, ?_, by decide, by decide⟩
  · intro hv
    have e1 : v.leInt 20 = true := (PyFloat.leInt_iff v 20 h).mpr (by exact_mod_cast hv)
    simp [payinCategoryOf, e1]
  · rintro ⟨hv1, hv2⟩
    have e1 : v.leInt 20 = false := leInt_false_of_lt v 20 h (by push_cast; linarith)
    have e2 : PyFloat.intLe 21 v = true :=
      (PyFloat.intLe_iff 21 v h).mpr (by exact_mod_cast hv1)
    have e3 : v.leInt 30 = true := (PyFloat.leInt_iff v 30 h).mpr (by exact_mod_cast hv2)
    simp [payinCategoryOf, e1, e2, e3]
  · rintro ⟨hv1, hv2⟩
    have e1 : v.leInt 20 = false := leInt_false_of_lt v 20 h (by push_cast; linarith)
    have e2 : v.leInt 30 = false := leInt_false_of_lt v 30 h (by push_cast; linarith)
    have e3 : PyFloat.intLe 31 v = true :=
      (PyFloat.intLe_iff 31 v h).mpr (by exact_mod_cast hv1)
    have e4 : v.leInt 50 = true := (PyFloat.leInt_iff v 50 h).mpr (by exact_mod_cast hv2)
    simp [payinCategoryOf, e1, e2, e3, e4]
  · rintro (hv | ⟨hv1, hv2⟩ | ⟨hv1, hv2⟩)
    · have e1 : v.leInt 20 = false := leInt_false_of_lt v 20 h (by push_cast; linarith)
      have e2 : v.leInt 30 = false := leInt_false_of_lt v 30 h (by push_cast; linarith)
      have e3 : v.leInt 50 = false := leInt_false_of_lt v 50 h (by push_cast; linarith)
      simp [payinCategoryOf, e1, e2, e3]
    · have e1 : v.leInt 20 = false := leInt_false_of_lt v 20 h (by push_cast; linarith)
      have e2 : PyFloat.intLe 21 v = false := intLe_false_of_lt 21 v h (by push_cast; linarith)
      have e3 : PyFloat.intLe 31 v = false := intLe_false_of_lt 31 v h (by push_cast; linarith)
      simp [payinCategoryOf, e1, e2, e3]
    · have e1 : v.leInt 20 = false := leInt_false_of_lt v 20 h (by push_cast; linarith)
      have e2 : v.leInt 30 = false := leInt_false_of_lt v 30 h (by push_cast; linarith)
      have e3 : PyFloat.intLe 31 v = false := intLe_false_of_lt 31 v h (by push_cast; linarith)
      simp [payinCategoryOf, e1, e2, e3]

/-- C1 amended, witnessed at the gap value 20.5 = 41/2: it is classified
`Payin Above 50%`. -/
theorem classify_payin_brackets_witness :
    payinCategoryOf ⟨41, 2⟩ = "Payin Above 50%" :=
  (classify_payin_brackets ⟨41, 2⟩ (by norm_num)).2.2.2.1
    (Or.inr (Or.inl ⟨by norm_num [PyFloat.toRat], by norm_num [PyFloat.toRat]⟩))

/-- C5: `classify_payin` cleans its input by stripping `%` and whitespace and
returns `(0.0, "Payin Below 20%")` whenever the cleaned text is empty, equals
`N/A` case-insensitively, or fails to parse as a number; it is a total
function, so no exception reaches the caller. -/
theorem classify_payin_default_on_unparsable (s : String)
    (h : cleanPayin s = "" ∨ pyUpper (cleanPayin s) = "N/A" ∨
      parsePyFloat (cleanPayin s) = none) :
    classify_payin s = (⟨0, 1⟩, "Payin Below 20%") := by
  unfold classify_payin
  rcases h with h | h | h
  · simp [h]
  · simp [h]
  · by_cases hc : cleanPayin s = "" ∨ pyUpper (cleanPayin s) = "N/A"
    · simp [hc]
    · simp [hc, h]

/-- C5 witnessed at the unparsable input `"abc%"`. -/
theorem classify_payin_default_witness :
    classify_payin "abc%" = (⟨0, 1⟩, "Payin Below 20%") :=
  classify_payin_default_on_unparsable "abc%" (Or.inr (Or.inr (by decide)))

/-- C7 counterexample: the claim says the first keyword set is exactly
`{TW, 2W, MC, SC, 1+5, TWO WHEELER}` so that a segment containing `MC`,
`SC` or `1+5` classifies as `TW`; the code's first set is
`{TW, 2W, TWO WHEELER, TWO-WHEELER}`, and the segments `MC`, `SC` and
`1+5` (with empty remarks) all classify as `UNKNOWN`, not `TW`. -/
theorem classifyLOB_first_set_counterexample :
    TW_KEYWORDS = ["TW", "2W", "TWO WHEELER", "TWO-WHEELER"] ∧
    classifyLOB "MC" "" = "UNKNOWN" ∧ classifyLOB "SC" "" = "UNKNOWN" ∧
    classifyLOB "1+5" "" = "UNKNOWN" ∧ ("UNKNOWN" : String) ≠ "TW" := by
  refine ⟨rfl, by decide, by decide, by decide, by decide⟩

/-- C7 amended: LOB classification tests the upper-cased segment against
ordered keyword sets, first set containing a matching keyword wins; the first
set is exactly `{TW, 2W, TWO WHEELER, TWO-WHEELER}` (no `MC`, `SC`, `1+5`)
mapping to `TW`, and only when no set matches does it scan the remarks text
for the CV keywords `{TATA, MARUTI, GVW, TN}` before returning `UNKNOWN`. -/
theorem classifyLOB_first_set_and_fallback (segment_upper remarks_upper : String) :
    TW_KEYWORDS = ["TW", "2W", "TWO WHEELER", "TWO-WHEELER"] ∧
    CV_REMARKS_KEYWORDS = ["TATA", "MARUTI", "GVW", "TN"] ∧
    (containsAny segment_upper TW_KEYWORDS = true →
      classifyLOB segment_upper remarks_upper = "TW") ∧
    (containsAny segment_upper TW_KEYWORDS = false →
     containsAny segment_upper CAR_KEYWORDS = false →
     containsAny segment_upper CV_KEYWORDS = false →
     pyIn "BUS" segment_upper = false →
     pyIn "TAXI" segment_upper = false →
     containsAny segment_upper MISD_KEYWORDS = false →
     classifyLOB segment_upper remarks_upper =
       if containsAny remarks_upper CV_REMARKS_KEYWORDS then "CV" else "UNKNOWN") := by
  refine ⟨rfl, rfl, ?_, ?_⟩
  · intro h
    simp [classifyLOB, h]
  · intro h1 h2 h3 h4 h5 h6
    simp [classifyLOB, h1, h2, h3, h4, h5, h6]

/-- C7 amended, witnessed: a segment containing `TW` classifies as `TW`, and
a no-keyword segment with `TATA` in the remarks falls back to `CV`. -/
theorem classifyLOB_first_set_and_fallback_witness :
    classifyLOB "TW TP" "" = "TW" ∧
    classifyLOB "QQQ" "TATA MAKE" = if containsAny "TATA MAKE" CV_REMARKS_KEYWORDS
      then "CV" else "UNKNOWN" :=
  ⟨(classifyLOB_first_set_and_fallback "TW TP" "").2.2.1 (by decide),
   (classifyLOB_first_set_and_fallback "QQQ" "TATA MAKE").2.2.2 (by decide) (by decide)
     (by decide) (by decide) (by decide) (by decide)⟩

/-- C4 counterexample: for the company name `Baj` (normalised `BAJ`), the
explicit-list `TW TP` rule matches through the reverse containment test
(`BAJ` is a substring of `BAJAJ`), while the `Rest of Companies` sibling of
the same (LOB, SEGMENT) group also matches, because the exclusion scan only
tests the forward direction — so the two match sets overlap. -/
theorem restOfCompanies_overlap_counterexample :
    FORMULA_DATA.get? 6 = some twTpExplicitRule ∧
    FORMULA_DATA.get? 7 = some twTpRestRule ∧
    twTpExplicitRule.LOB = twTpRestRule.LOB ∧
    twTpExplicitRule.SEGMENT = twTpRestRule.SEGMENT ∧
    companyMatch FORMULA_DATA twTpExplicitRule (normalizeCompany "Baj") = true ∧
    companyMatch FORMULA_DATA twTpRestRule (normalizeCompany "Baj") = true := by
  refine ⟨rfl, rfl, rfl, rfl, by decide, by decide⟩

/-- C4 amended: the disjointness holds in the forward direction only — if
some insurer listed by an explicit sibling rule of the same (LOB, SEGMENT)
group is a substring of the normalised company name, then the
`Rest of Companies` rule of that group does not match the company. -/
theorem restOfCompanies_excludes_forward_matches (table : List Rule) (r rx : Rule)
    (company : String)
    (hmem : rx ∈ table) (hlob : rx.LOB = r.LOB) (hseg : rx.SEGMENT = r.SEGMENT)
    (hnr : pyIn "REST OF COMPANIES" rx.INSURER = false)
    (hna : pyIn "ALL COMPANIES" rx.INSURER = false)
    (hkey : (splitInsurers rx.INSURER).any (fun key => pyIn key company) = true)
    (hrest : (splitInsurers r.INSURER).contains "REST OF COMPANIES" = true)
    (hnall : (splitInsurers r.INSURER).contains "ALL COMPANIES" = false) :
    companyMatch table r company = false := by
  have hspec : isInSpecificList table r company = true := by
    unfold isInSpecificList
    rw [List.any_eq_true]
    exact ⟨rx, hmem, by simp [hlob, hseg, hnr, hna, hkey]⟩
  unfold companyMatch
  rw [hnall, hrest, hspec]
  rfl

/-- C4 amended, witnessed: the full company name `Bajaj` is excluded from the
`TW TP` rest-of-companies rule, since the sibling explicitly lists it. -/
theorem restOfCompanies_excludes_forward_matches_witness :
    companyMatch FORMULA_DATA twTpRestRule (normalizeCompany "Bajaj") = false :=
  restOfCompanies_excludes_forward_matches FORMULA_DATA twTpRestRule twTpExplicitRule
    (normalizeCompany "Bajaj") (by decide) rfl rfl (by decide) (by decide) (by decide)
    (by decide) (by decide)

/-- C6 witnessed on a table holding two copies of a firing TAXI rule: the
scan returns the first copy even though index 1 also fires. -/
theorem first_match_wins_witness :
    findRule FORMULA_DATA "TAXI" "TAXI" "TAXI" "ACME" (.s "Payin Below 20%")
        [taxiBelowRule, taxiBelowRule] =
      .ok (some (taxiBelowRule, ruleExplanation "TAXI" taxiBelowRule "Payin Below 20%")) := by
  obtain ⟨k, hk, hki, hfk, hmin, heq⟩ := first_match_wins FORMULA_DATA "TAXI" "TAXI" "TAXI"
    "ACME" "Payin Below 20%" [taxiBelowRule, taxiBelowRule] 1 (by decide) (by decide)
  have hget : [taxiBelowRule, taxiBelowRule].get ⟨k, hk⟩ = taxiBelowRule := by
    rcases k with _ | k1
    · rfl
    · rcases k1 with _ | k2
      · rfl
      · exact absurd hk (by omega)
  rw [heq, hget]

/-- C2 (code bug): for the record segment `TW TP`, payin `55%`, company
`Bajaj`, classification does produce LOB `TW` and bracket `Payin Above 50%`,
but the `TW TP` rule scoped to `{Bajaj, Digit, ICICI}` carries the remark
`Payin Above 20%`, and the remark matcher only fires when the record's
bracket label is a substring of the remark — `Payin Above 50%` is not a
substring of `Payin Above 20%` — so that rule never fires and the
`Rest of Companies` siblings exclude Bajaj: the output is
`No matching rule found` with payout `55.00%`, not `52.00%`. -/
theorem twTp_scenario_code_behavior :
    classify_payin "55%" = (⟨55, 1⟩, "Payin Above 50%") ∧
    classifyLOB "TW TP" "" = "TW" ∧
    pyIn "Payin Above 50%" twTpExplicitRule.REMARKS = false ∧
    recordMatch FORMULA_DATA "Bajaj" twTpRecord = .ok none ∧
    (apply_formula_directly [twTpRecord] "Bajaj").map
        (fun r => (lookupField r "Calculated Payout", lookupField r "Formula Used")) =
      [(some (.s "55.00%"), some (.s "No matching rule found"))] := by
  refine ⟨by decide, by decide, by decide, rfl, by decide⟩

/-- C3 counterexample: a no-match record with payin value −5 is output with
payout `-5.00%` — the fall-back path applies no clamp — whereas
`max(0, −5)` would format as `0.00%`. -/
theorem negative_payout_counterexample :
    (apply_formula_directly [negPayinRecord] "Acme").map
        (fun r => lookupField r "Calculated Payout") = [some (.s "-5.00%")] ∧
    formatPct (max0 ⟨-5, 1⟩) = "0.00%" ∧
    ("-5.00%" : String) ≠ "0.00%" := by
  refine ⟨by decide, by decide, by decide⟩

/-- C3 amended: when a rule matches, the payout is
`max(0, apply(formula, payin))` — and `max0` is the rational `max 0`, so that
payout is never negative; when no rule matches, the payout falls back to the
record's payin value with no clamp applied, so it can be negative. -/
theorem payout_clamped_only_on_match (table : List Rule) (company : String)
    (record : Record) (v : PyFloat)
    (hv : getVal record "Payin_Value" (.n ⟨0, 1⟩) = .n v) :
    (∀ rule expl, recordMatch table company record = .ok (some (rule, expl)) →
      computeFields table company record =
        .ok (formatPct (max0 (applyPO rule.PO v)), rule.PO, expl)) ∧
    (0 < v.den → ∀ po, (max0 (applyPO po v)).toRat = max 0 (applyPO po v).toRat) ∧
    (recordMatch table company record = .ok none →
      computeFields table company record =
        .ok (formatPct v, "No matching rule found", "")) := by
  refine ⟨?_, ?_, ?_⟩
  · intro rule expl hm
    unfold computeFields
    rw [hm, hv]
    rfl
  · intro hden po
    exact max0_toRat _ (applyPO_den_pos po v hden)
  · intro hm
    unfold computeFields
    rw [hm, hv]
    rfl

/-- C3 amended, witnessed on the unmatched record with payin −5: the computed
fields carry the unclamped payin. -/
theorem payout_clamped_only_on_match_witness :
    computeFields FORMULA_DATA "Acme" negPayinRecord =
      .ok (formatPct ⟨-5, 1⟩, "No matching rule found", "") :=
  (payout_clamped_only_on_match FORMULA_DATA "Acme" negPayinRecord ⟨-5, 1⟩ rfl).2.2 rfl

/-- C8 counterexample: a record matching no decision-table entry gets
`Formula Used = "No matching rule found"`, but its `Rule Explanation` is the
empty string — not the claimed `"no rule for <lob>/<segment>/<company>"`
text, which the empty string cannot contain. -/
theorem no_match_explanation_counterexample :
    (apply_formula_directly [unknownSegRecord] "Acme").map
        (fun r => (lookupField r "Formula Used", lookupField r "Rule Explanation")) =
      [(some (.s "No matching rule found"), some (.s ""))] ∧
    pyIn "no rule for" "" = false := by
  refine ⟨by decide, by decide⟩

/-- C8 amended: when no decision-table entry matches a record (and its payin
value is numeric), the output carries no rule: `Formula Used` is
`"No matching rule found"` and `Rule Explanation` is the empty string. -/
theorem no_match_fields (company : String) (record : Record) (v : PyFloat)
    (hv : getVal record "Payin_Value" (.n ⟨0, 1⟩) = .n v)
    (hnone : recordMatch FORMULA_DATA company record = .ok none) :
    lookupField (processOne FORMULA_DATA company record) "Formula Used" =
      some (.s "No matching rule found") ∧
    lookupField (processOne FORMULA_DATA company record) "Rule Explanation" =
      some (.s "") := by
  have hc : computeFields FORMULA_DATA company record =
      .ok (formatPct v, "No matching rule found", "") := by
    unfold computeFields
    rw [hnone, hv]
    rfl
  have hp : processOne FORMULA_DATA company record =
      assembleOutput record (formatPct v) "No matching rule found" "" := by
    unfold processOne
    rw [hc]
  constructor
  · rw [hp]
    exact assembleOutput_formula _ _ _ _
  · rw [hp]
    exact assembleOutput_explanation _ _ _ _

/-- C8 amended, witnessed on a record whose segment matches no LOB. -/
theorem no_match_fields_witness :
    lookupField (processOne FORMULA_DATA "Acme" unknownSegRecord) "Formula Used" =
        some (.s "No matching rule found") ∧
    lookupField (processOne FORMULA_DATA "Acme" unknownSegRecord) "Rule Explanation" =
        some (.s "") :=
  no_match_fields "Acme" unknownSegRecord ⟨10, 1⟩ rfl rfl

/-- C9: when processing one record raises (its computed fields are an
exception), that record's output carries `Error` / `Error in calculation` /
the caught message, the batch keeps one output per input, and every record's
output — in particular every other record's — is exactly its own processed
result, unaffected by the failure. -/
theorem error_isolated_per_record (company : String) (records : List Record)
    (i : Nat) (r : Record) (msg : String)
    (hrec : records.get? i = some r)
    (herr : computeFields FORMULA_DATA company r = .error msg) :
    (apply_formula_directly records company).length = records.length ∧
    (apply_formula_directly records company).get? i =
      some (assembleOutput r "Error" "Error in calculation" ("Error: " ++ msg)) ∧
    ∀ j rj, records.get? j = some rj →
      (apply_formula_directly records company).get? j =
        some (processOne FORMULA_DATA company rj) := by
  refine ⟨by simp [apply_formula_directly], ?_, ?_⟩
  · unfold apply_formula_directly
    rw [List.get?_map, hrec]
    have hone : processOne FORMULA_DATA company r =
        assembleOutput r "Error" "Error in calculation" ("Error: " ++ msg) := by
      unfold processOne
      rw [herr]
    rw [Option.map_some', hone]
  · intro j rj hj
    unfold apply_formula_directly
    rw [List.get?_map, hj, Option.map_some']

/-- C9 witnessed on a two-record batch whose first record has a string payin
value (arithmetic raises): the first output carries the error markers and the
second record is processed normally. -/
theorem error_isolated_per_record_witness :
    (apply_formula_directly [badPayinRecord, taxiRecord] "Acme").get? 0 =
      some (assembleOutput badPayinRecord "Error" "Error in calculation"
        ("Error: " ++ "unsupported operand type for payout arithmetic")) ∧
    (apply_formula_directly [badPayinRecord, taxiRecord] "Acme").get? 1 =
      some (processOne FORMULA_DATA "Acme" taxiRecord) := by
  have h := error_isolated_per_record "Acme" [badPayinRecord, taxiRecord] 0 badPayinRecord
    "unsupported operand type for payout arithmetic" rfl rfl
  exact ⟨h.2.1, h.2.2 1 taxiRecord rfl⟩

/-- C10: `apply_formula_directly` returns exactly one output record per input
record in order; each output is its input record with only the three fields
`Calculated Payout`, `Formula Used` and `Rule Explanation` set (added or
overwritten): every other key reads back its input value, and the three
fields are present with string values.  The embedding is pure, mirroring
that the source writes only to a `record.copy()`. -/
theorem output_extends_input (company : String) (records : List Record) :
    (apply_formula_directly records company).length = records.length ∧
    ∀ i r, records.get? i = some r →
      ∃ p f e, (apply_formula_directly records company).get? i =
          some (assembleOutput r p f e) ∧
        (∀ q, q ≠ "Calculated Payout" → q ≠ "Formula Used" → q ≠ "Rule Explanation" →
          lookupField (assembleOutput r p f e) q = lookupField r q) ∧
        lookupField (assembleOutput r p f e) "Calculated Payout" = some (.s p) ∧
        lookupField (assembleOutput r p f e) "Formula Used" = some (.s f) ∧
        lookupField (assembleOutput r p f e) "Rule Explanation" = some (.s e) := by
  refine ⟨by simp [apply_formula_directly], ?_⟩
  intro i r hir
  obtain ⟨p, f, e, hpe⟩ := processOne_eq_assemble FORMULA_DATA company r
  refine ⟨p, f, e, ?_, ?_, assembleOutput_payout r p f e, assembleOutput_formula r p f e,
    assembleOutput_explanation r p f e⟩
  · unfold apply_formula_directly
    rw [List.get?_map, hir, Option.map_some', hpe]
  · intro q h1 h2 h3
    exact assembleOutput_frame r p f e q h1 h2 h3

/-- C10 witnessed on a one-record batch. -/
theorem output_extends_input_witness :
    (apply_formula_directly [taxiRecord] "HDFC").length = 1 :=
  (output_extends_input "HDFC" [taxiRecord]).1
